import Mathlib

/-!
# Verification of the kask launcher (src/kui/kui.go)

A shallow embedding of the kask plugin launcher: version resolution
(`GetVersion`/`toInt`), distribution location (`GetDistOSSuffix`,
`GetDistLocation`, `GetRootCommand`), the download helper (`DownloadFile`),
the cache-and-fetch protocol (`DownloadDistIfNecessary`) as a state machine
over an abstract per-entry cache state with an explicit effect trace, and
the launch-style / command-context logic of `Run`.

Go strings are modelled as Lean `String`; string helpers from Go's standard
library (`strings.HasSuffix`, `strings.Split`, `strconv.Atoi`, prefix
matching) are modelled as executable functions on the underlying character
lists so that everything evaluates by `decide`/`rfl`.
-/

namespace Kask

/-- Go `strings.HasSuffix s suffix`. -/
def goHasSuffix (s suffix : String) : Bool :=
  suffix.data.isSuffixOf s.data

/-- Go `strings.HasPrefix` / anchored-regexp match `^pre` on `s`. -/
def goStartsWith (pre s : String) : Bool :=
  pre.data.isPrefixOf s.data

/-- Result of Go's `regexp.MustCompile("^" + pre).ReplaceAllString(s, "")`
when the anchored pattern matches: the leading occurrence is removed. -/
def goStripStart (pre s : String) : String :=
  ⟨s.data.drop pre.data.length⟩

/-- Go `strings.Split s "."`: split on the dot character.  `strings.Split`
always returns at least one component. -/
def goSplitDots (s : String) : List String :=
  (s.data.splitOn '.').map fun cs => ⟨cs⟩

/-- One decimal digit. -/
def digitVal (c : Char) : Option Nat :=
  if c.isDigit then some (c.toNat - '0'.toNat) else none

/-- Parse a nonempty all-digit character list as a natural number. -/
def parseDigits : List Char → Option Nat
  | [] => none
  | cs =>
    cs.foldl (fun acc c => match acc, digitVal c with
      | some n, some d => some (10 * n + d)
      | _, _ => none) (some 0)

/-- Go `strconv.Atoi`: an optional sign followed by at least one digit;
anything else is an error (`none`). -/
def atoiOpt (s : String) : Option Int :=
  match s.data with
  | [] => none
  | '-' :: rest => (parseDigits rest).map fun n => -(n : Int)
  | '+' :: rest => (parseDigits rest).map fun n => (n : Int)
  | cs => (parseDigits cs).map fun n => (n : Int)

/-- `toInt` from src/kui/kui.go: `strconv.Atoi` with the error discarded,
so a failed parse silently yields `0`. -/
def toInt (s : String) : Int :=
  (atoiOpt s).getD 0

/-- `VersionType` from src/kui/kui.go: either the development version
(`DevVer`) or a semantic version (`SemVer{Major, Minor, Build}`). -/
inductive VersionType where
  | devVer : VersionType
  | semVer (major minor build : Int) : VersionType
deriving DecidableEq, Repr

/-- The `String()` method of `VersionType`: `DevVer` renders as the
development tag `PLUGIN_VERSION = "dev"`, `SemVer` as `"major.minor.build"`. -/
def VersionType.render : VersionType → String
  | .devVer => "dev"
  | .semVer a b c => toString a ++ "." ++ toString b ++ "." ++ toString c

/-- `GetVersion` from src/kui/kui.go, as a function of the build-injected
`PLUGIN_VERSION` string.  The Go code indexes `s[0]`, `s[1]`, `s[2]` of the
split without checking the component count, so fewer than three components
is a runtime panic, modelled as `none`; extra components are ignored. -/
def getVersion (pluginVersion : String) : Option VersionType :=
  if pluginVersion = "dev" then
    some .devVer
  else
    match goSplitDots pluginVersion with
    | a :: b :: c :: _ => some (.semVer (toInt a) (toInt b) (toInt c))
    | _ => none

/-- `GetDistOSSuffix` from src/kui/kui.go, as a function of `runtime.GOOS`. -/
def getDistOSSuffix (goos : String) : String :=
  if goos = "windows" then "-base-win32-x64.zip"
  else if goos = "darwin" then "-base-darwin-x64.tar.bz2"
  else "-base-linux-x64.zip"

/-- The default download host of `GetDistLocation`. -/
def defaultHost (version : String) : String :=
  "https://s3-api.us-geo.objectstorage.softlayer.net/kui-" ++ version

/-- The host used by `GetDistLocation`: the `KUI_DIST` environment
override when set (`kuiDist = some h`), else the default host. -/
def hostOf (kuiDist : Option String) (version : String) : String :=
  match kuiDist with
  | some h => h
  | none => defaultHost version

/-- `GetDistLocation` from src/kui/kui.go.  `kuiDist` is the value of the
`KUI_DIST` environment variable (`none` when unset); when set it entirely
replaces the default host.  A trailing `/` is ensured, then `"Kui"` and the
OS suffix are appended. -/
def getDistLocation (kuiDist : Option String) (version goos : String) : String :=
  let host := hostOf kuiDist version
  let host := if goHasSuffix host "/" then host else host ++ "/"
  host ++ "Kui" ++ getDistOSSuffix goos

/-- `GetRootCommand` from src/kui/kui.go: the path of the root executable
inside the extracted tree, per OS. -/
def getRootCommand (goos extractedDir : String) : String :=
  if goos = "windows" then extractedDir ++ "/" ++ "Kui-base-win32-x64\\Kui.exe"
  else if goos = "darwin" then extractedDir ++ "/" ++ "Kui-base-darwin-x64/Kui.app/Contents/MacOS/Kui"
  else extractedDir ++ "/" ++ "Kui-base-linux-x64/Kui"

/-- `targetDir` in `DownloadDistIfNecessary`: `pluginDir/cache-<version>`. -/
def targetDir (pluginDir version : String) : String :=
  pluginDir ++ "/cache-" ++ version

/-- `successFile` in `DownloadDistIfNecessary`: the readiness marker path. -/
def successFile (pluginDir version : String) : String :=
  targetDir pluginDir version ++ "/success"

/-- `extractedDir` in `DownloadDistIfNecessary`. -/
def extractedDirPath (pluginDir version : String) : String :=
  targetDir pluginDir version ++ "/extract"

/-- `downloadedFile` in `DownloadDistIfNecessary`: the Go code hardcodes the
name `"downloaded.zip"` for every OS (src/kui/kui.go line 298). -/
def downloadedFilePath (pluginDir version : String) : String :=
  targetDir pluginDir version ++ "/downloaded.zip"

/-! ## DownloadFile (src/kui/kui.go lines 232-251) -/

/-- An HTTP response as `http.Get` delivers it when no transport-level
error occurred: a status code and a body.  `http.Get` returns an error
only for transport failures; a non-2xx response is a normal response. -/
structure HttpResponse where
  statusCode : Nat
  body : String
deriving DecidableEq, Repr

/-- `DownloadFile` from src/kui/kui.go.  `getResult` is the outcome of
`http.Get url` (error = transport failure); `createOk` is whether
`os.Create filepath` succeeds.  The function never inspects the status
code: on any response it streams the body to the file and returns `nil`
(modelled as `.ok body`, the contents written to the destination file). -/
def downloadFileModel (getResult : Except Unit HttpResponse) (createOk : Bool) :
    Except Unit String :=
  match getResult with
  | .error e => .error e
  | .ok resp =>
    if createOk then .ok resp.body
    else .error ()

/-! ## DownloadDistIfNecessary (src/kui/kui.go lines 253-340)

The cache protocol is embedded as a state machine over the abstract state
of one `(pluginDirectory, version)` cache entry, with an explicit trace of
filesystem/network effects.  The outside world (network, archive
extraction, marker creation) is an explicit environment. -/

/-- Abstract state of one `(pluginDirectory, version)` cache entry:
whether the `success` marker file exists, the contents of `extract/`
(`[]` = absent or empty), and the downloaded archive (`none` = absent). -/
structure CacheState where
  marker : Bool
  extracted : List String
  archive : Option String
deriving DecidableEq, Repr

/-- The observable effects `DownloadDistIfNecessary` performs, in program
order: the forced-refresh cleanup, directory creation, the network
download, the self-symlink maintenance, archive extraction, and creation
of the success marker. -/
inductive Effect where
  | removeMarker
  | removeExtractedDir
  | mkdirExtracted
  | download
  | removeOldSymlink
  | makeSymlink
  | extract
  | createMarker
deriving DecidableEq, Repr

/-- The environment `DownloadDistIfNecessary` runs against:
`downloadResult` is the outcome of `DownloadFile` (the archive contents on
success), `extractResult archive old` is the outcome of unarchiving
`archive` into a directory currently holding `old` (the new directory
contents on success), and `createMarkerOk` is whether `os.OpenFile` on the
success marker succeeds. -/
structure DistEnv where
  downloadResult : Except Unit String
  extractResult : String → List String → Except Unit (List String)
  createMarkerOk : Bool

/-- The forced-refresh cleanup (src/kui/kui.go lines 286-295): remove the
success marker and recursively remove `extract/`.  Removal errors are only
logged, so the state is unconditionally cleared and no error escapes. -/
def afterForce (force : Bool) (s : CacheState) : CacheState :=
  if force then { s with marker := false, extracted := [] } else s

/-- The effects of the forced-refresh cleanup: `os.Remove successFile` and
`os.RemoveAll extractedDir` are both attempted whenever `force` is set. -/
def forceTrace (force : Bool) : List Effect :=
  if force then [.removeMarker, .removeExtractedDir] else []

/-- The effect trace and outcome of `DownloadDistIfNecessary` run with
flag `force` against environment `env` from cache state `s`.  On success
the result carries the new cache state and the root command path (built
from `extractedDir` before the readiness check, line 283).  Mirrors
src/kui/kui.go lines 253-340: forced cleanup, then the readiness check on
the success marker; if the marker is absent: `MkdirAll`, download (abort
on error), symlink maintenance (non-fatal), extraction (abort on error),
marker creation (abort on error); if the marker is present: nothing. -/
def downloadDistIfNecessary (goos pluginDir version : String) (env : DistEnv)
    (force : Bool) (s : CacheState) :
    List Effect × Except Unit (CacheState × String) :=
  let command := getRootCommand goos (extractedDirPath pluginDir version)
  let s1 := afterForce force s
  let pre := forceTrace force
  if s1.marker then
    (pre, .ok (s1, command))
  else
    match env.downloadResult with
    | .error e => (pre ++ [.mkdirExtracted, .download], .error e)
    | .ok content =>
      match env.extractResult content s1.extracted with
      | .error e =>
        (pre ++ [.mkdirExtracted, .download, .removeOldSymlink, .makeSymlink, .extract],
         .error e)
      | .ok files =>
        let tr := pre ++ [.mkdirExtracted, .download, .removeOldSymlink, .makeSymlink,
          .extract, .createMarker]
        if env.createMarkerOk then
          (tr, .ok ({ marker := true, extracted := files, archive := some content }, command))
        else
          (tr, .error ())

/-! ## Launch-style selection and command context (src/kui/kui.go Run) -/

/-- `ExecStyle` from src/kui/kui.go: `ExecWithStart` (detached) or
`ExecWithRun` (blocking). -/
inductive ExecStyle where
  | execWithStart
  | execWithRun
deriving DecidableEq, Repr

/-- The default command context (src/kui/kui.go line 39). -/
def defaultCommandContext : String := "plugin"

/-- The command-context derivation in `Run` (src/kui/kui.go lines
139-149): strip the `kubectl-` prefix from the invoked basename if
present, else use the default; if the result is `"kask"`, fall back to the
default. -/
def commandContext (base : String) : String :=
  let c := if goStartsWith "kubectl-" base then goStripStart "kubectl-" base
    else defaultCommandContext
  if c = "kask" then defaultCommandContext else c

/-- The execution-style selection in `Run` (src/kui/kui.go lines 153-161),
as a function of the sub-argument list `kaskArgs`: the style and whether
`KUI_HEADLESS=true` is injected.  The Go code indexes `kaskArgs[0]`, so an
empty list (unreachable in `Run`) is modelled as `none`.  Blocking
headless mode is chosen when the first sub-argument is one of the five
recognized commands and either there is no second sub-argument or the
second sub-argument is not `--ui`. -/
def execPlan (kaskArgs : List String) : Option (ExecStyle × Bool) :=
  match kaskArgs with
  | [] => none
  | arg :: rest =>
    if arg = "install" ∨ arg = "uninstall" ∨ arg = "list" ∨ arg = "version" ∨
        arg = "commands" then
      if rest.length = 0 ∨ rest.head? ≠ some "--ui" then
        some (.execWithRun, true)
      else
        some (.execWithStart, false)
    else
      some (.execWithStart, false)

/-! ## Concrete fixtures used by witnesses -/

/-- A fully successful environment: the download yields archive `"A"`,
extraction yields one file, marker creation succeeds. -/
def envOk : DistEnv :=
  { downloadResult := .ok "A"
    extractResult := fun _ _ => .ok ["Kui-base-linux-x64/Kui"]
    createMarkerOk := true }

/-- An environment whose network is down: any download attempt fails. -/
def envDown : DistEnv :=
  { downloadResult := .error ()
    extractResult := fun _ _ => .error ()
    createMarkerOk := false }

/-- A cache entry that crashed mid-extraction: no success marker, but a
non-empty `extract/` directory. -/
def sCrashed : CacheState :=
  { marker := false, extracted := ["partial-file"], archive := none }

/-- A ready cache entry: marker present, extracted contents in place. -/
def sReady : CacheState :=
  { marker := true, extracted := ["Kui-base-linux-x64/Kui"], archive := some "A" }

end Kask

namespace Kask

/-! ## String helper lemmas -/

theorem goHasSuffix_append (s t : String) : goHasSuffix (s ++ t) t = true := by
  simp only [goHasSuffix, List.isSuffixOf_iff_suffix, String.data_append, decide_eq_true_eq]
  exact List.suffix_append _ _

theorem mk_dropLast_append_slash {h : String} (hh : goHasSuffix h "/" = true) :
    String.mk h.data.dropLast ++ "/" = h := by
  have hs : ("/" : String).data <:+ h.data := by
    simpa [goHasSuffix, List.isSuffixOf_iff_suffix] using hh
  obtain ⟨p, hp⟩ := hs
  apply String.ext
  have hslash : ("/" : String).data = ['/'] := rfl
  rw [String.data_append, ← hp, hslash]
  simp

/-! ## C4: version resolution -/

/-- C4.  The claim says malformed inputs (not exactly 3 dot-separated
non-negative integer components) must fail with an `InvalidVersionFormat`
error.  The code does not: `toInt` discards the `strconv.Atoi` error, so
`"1.2.x"` silently resolves to `SemVer{1,2,0}`, and `"1.2"` is a runtime
panic (index out of range), not a typed error.  This theorem evaluates the
code's behavior: the `"dev"` and `"1.2.3"` cases match the claim, the
malformed cases do not. -/
theorem getVersion_behavior :
    getVersion "dev" = some .devVer ∧
    VersionType.devVer.render = "dev" ∧
    getVersion "1.2.3" = some (.semVer 1 2 3) ∧
    (VersionType.semVer 1 2 3).render = "1.2.3" ∧
    getVersion "1.2.x" = some (.semVer 1 2 0) ∧
    getVersion "1.2" = none ∧
    getVersion "1.2.3.4" = some (.semVer 1 2 3) := by
  decide

/-! ## C9: the archive-suffix mapping -/

/-- C9.  `GetDistOSSuffix` is the fixed total mapping
`windows ↦ "-base-win32-x64.zip"`, `darwin ↦ "-base-darwin-x64.tar.bz2"`,
everything else `↦ "-base-linux-x64.zip"`; it takes no version input, so it
is independent of the version. -/
theorem distOSSuffix_fixed_mapping :
    getDistOSSuffix "windows" = "-base-win32-x64.zip" ∧
    getDistOSSuffix "darwin" = "-base-darwin-x64.tar.bz2" ∧
    ∀ goos : String, goos ≠ "windows" → goos ≠ "darwin" →
      getDistOSSuffix goos = "-base-linux-x64.zip" := by
  refine ⟨by decide, by decide, ?_⟩
  intro goos h1 h2
  simp [getDistOSSuffix, h1, h2]

/-- Witness for C9 at the concrete OS `"linux"`. -/
theorem distOSSuffix_fixed_mapping_witness :
    getDistOSSuffix "linux" = "-base-linux-x64.zip" :=
  distOSSuffix_fixed_mapping.2.2 "linux" (by decide) (by decide)

/-! ## C10: DownloadFile ignores the HTTP status code -/

/-- C10.  `DownloadFile` never inspects the response status code: whenever
`http.Get` returns without a transport-level error and the destination
file can be created, the result is `nil` success, the outcome is the same
for any two status codes (including 404), and the response body is what
gets written to the destination file. -/
theorem downloadFile_ignores_status (status other : Nat) (body : String) :
    downloadFileModel (.ok ⟨status, body⟩) true = .ok body ∧
    (∀ createOk : Bool, downloadFileModel (.ok ⟨status, body⟩) createOk =
      downloadFileModel (.ok ⟨other, body⟩) createOk) ∧
    downloadFileModel (.ok ⟨404, "<html>Not Found</html>"⟩) true =
      .ok "<html>Not Found</html>" := by
  refine ⟨rfl, ?_, rfl⟩
  intro createOk
  cases createOk <;> rfl

/-! ## C7: the downloaded-archive path -/

/-- C7 counterexample.  On darwin the download URL ends in `".tar.bz2"`,
but the archive is saved as `targetDir/downloaded.zip` (the name is
hardcoded in src/kui/kui.go line 298), so the downloaded path's extension
does not match the darwin archive format, contradicting the claim. -/
theorem downloadedFilePath_darwin_counterexample :
    goHasSuffix (getDistLocation none "1.2.3" "darwin") ".tar.bz2" = true ∧
    downloadedFilePath "/home/u/.kask" "1.2.3" =
      "/home/u/.kask/cache-1.2.3/downloaded.zip" ∧
    goHasSuffix (downloadedFilePath "/home/u/.kask" "1.2.3") ".tar.bz2" = false := by
  decide

/-- C7 amended.  The archive is downloaded to `targetDir/downloaded.zip`
on every OS: the file name is fixed, independent of the OS archive format,
and always ends in `".zip"` (on darwin this does not match the URL's
`".tar.bz2"` extension; the extractor is chosen from the URL suffix, not
the file name). -/
theorem downloadedFilePath_always_zip (pluginDir version : String) :
    downloadedFilePath pluginDir version =
      targetDir pluginDir version ++ "/downloaded.zip" ∧
    goHasSuffix (downloadedFilePath pluginDir version) ".zip" = true := by
  constructor
  · rfl
  · have h : downloadedFilePath pluginDir version =
        (targetDir pluginDir version ++ "/downloaded") ++ ".zip" := by
      show targetDir pluginDir version ++ "/downloaded.zip" =
        (targetDir pluginDir version ++ "/downloaded") ++ ".zip"
      rw [String.append_assoc]
      congr 1
    rw [h]
    exact goHasSuffix_append _ _

/-! ## C8: command-context derivation -/

/-- C8.  The command context is the invoked basename with the `kubectl-`
lead removed when present (unless the remainder is the launcher's own name
`"kask"`, which falls back to the default `"plugin"`), and the default
otherwise; in particular `kubectl-foo ↦ foo`, `kubectl-kask ↦ plugin`,
`myplugin ↦ plugin`. -/
theorem commandContext_spec :
    (∀ base, goStartsWith "kubectl-" base = true →
      goStripStart "kubectl-" base ≠ "kask" →
      commandContext base = goStripStart "kubectl-" base) ∧
    (∀ base, goStartsWith "kubectl-" base = true →
      goStripStart "kubectl-" base = "kask" →
      commandContext base = defaultCommandContext) ∧
    (∀ base, goStartsWith "kubectl-" base = false →
      commandContext base = defaultCommandContext) ∧
    commandContext "kubectl-foo" = "foo" ∧
    commandContext "kubectl-kask" = defaultCommandContext ∧
    commandContext "myplugin" = defaultCommandContext := by
  refine ⟨?_, ?_, ?_, by decide, by decide, by decide⟩
  · intro base h1 h2
    simp [commandContext, h1, h2]
  · intro base h1 h2
    simp [commandContext, h1, h2, defaultCommandContext]
  · intro base h1
    simp [commandContext, h1, defaultCommandContext]

/-- Witness for C8 at the concrete invoked name `"kubectl-foo"`. -/
theorem commandContext_spec_witness :
    commandContext "kubectl-foo" = goStripStart "kubectl-" "kubectl-foo" :=
  commandContext_spec.1 "kubectl-foo" (by decide) (by decide)

/-! ## Branch characterizations of DownloadDistIfNecessary -/

theorem run_eq_of_marker {goos pluginDir version : String} {env : DistEnv}
    {force : Bool} {s : CacheState} (hm : (afterForce force s).marker = true) :
    downloadDistIfNecessary goos pluginDir version env force s =
      (forceTrace force, .ok (afterForce force s,
        getRootCommand goos (extractedDirPath pluginDir version))) := by
  simp [downloadDistIfNecessary, hm]

theorem run_eq_of_download_error {goos pluginDir version : String} {env : DistEnv}
    {force : Bool} {s : CacheState} {e : Unit}
    (hm : (afterForce force s).marker = false)
    (hdl : env.downloadResult = .error e) :
    downloadDistIfNecessary goos pluginDir version env force s =
      (forceTrace force ++ [.mkdirExtracted, .download], .error e) := by
  simp [downloadDistIfNecessary, hm, hdl]

theorem run_eq_of_extract_error {goos pluginDir version : String} {env : DistEnv}
    {force : Bool} {s : CacheState} {content : String} {e : Unit}
    (hm : (afterForce force s).marker = false)
    (hdl : env.downloadResult = .ok content)
    (hex : env.extractResult content (afterForce force s).extracted = .error e) :
    downloadDistIfNecessary goos pluginDir version env force s =
      (forceTrace force ++ [.mkdirExtracted, .download, .removeOldSymlink,
        .makeSymlink, .extract], .error e) := by
  simp [downloadDistIfNecessary, hm, hdl, hex]

theorem run_eq_of_success {goos pluginDir version : String} {env : DistEnv}
    {force : Bool} {s : CacheState} {content : String} {files : List String}
    (hm : (afterForce force s).marker = false)
    (hdl : env.downloadResult = .ok content)
    (hex : env.extractResult content (afterForce force s).extracted = .ok files)
    (hc : env.createMarkerOk = true) :
    downloadDistIfNecessary goos pluginDir version env force s =
      (forceTrace force ++ [.mkdirExtracted, .download, .removeOldSymlink,
        .makeSymlink, .extract, .createMarker],
       .ok ({ marker := true, extracted := files, archive := some content },
        getRootCommand goos (extractedDirPath pluginDir version))) := by
  simp [downloadDistIfNecessary, hm, hdl, hex, hc]

theorem run_eq_of_marker_create_fail {goos pluginDir version : String} {env : DistEnv}
    {force : Bool} {s : CacheState} {content : String} {files : List String}
    (hm : (afterForce force s).marker = false)
    (hdl : env.downloadResult = .ok content)
    (hex : env.extractResult content (afterForce force s).extracted = .ok files)
    (hc : env.createMarkerOk = false) :
    downloadDistIfNecessary goos pluginDir version env force s =
      (forceTrace force ++ [.mkdirExtracted, .download, .removeOldSymlink,
        .makeSymlink, .extract, .createMarker], .error ()) := by
  simp [downloadDistIfNecessary, hm, hdl, hex, hc]

/-! ## C6: the distribution URL -/

/-- C6.  For every override value (set or unset) and every version and OS,
the distribution URL always ends in `"Kui" ++ suffix`, and equals the host
— the `KUI_DIST` override entirely replacing the default host when set,
with its trailing `/` (if any) dropped — followed by exactly one `/`
followed by `"Kui" ++ suffix`. -/
theorem distLocation_single_slash (kuiDist : Option String) (version goos : String) :
    goHasSuffix (getDistLocation kuiDist version goos) ("Kui" ++ getDistOSSuffix goos) = true ∧
    getDistLocation kuiDist version goos =
      (if goHasSuffix (hostOf kuiDist version) "/" then
        String.mk (hostOf kuiDist version).data.dropLast
      else hostOf kuiDist version) ++ "/" ++ ("Kui" ++ getDistOSSuffix goos) := by
  by_cases hh : goHasSuffix (hostOf kuiDist version) "/" = true
  · have hurl : getDistLocation kuiDist version goos =
        hostOf kuiDist version ++ "Kui" ++ getDistOSSuffix goos := by
      simp [getDistLocation, hh]
    refine ⟨?_, ?_⟩
    · rw [hurl, String.append_assoc]
      exact goHasSuffix_append _ _
    · rw [hurl, hh, if_pos rfl, mk_dropLast_append_slash hh, String.append_assoc]
  · have hh' : goHasSuffix (hostOf kuiDist version) "/" = false := by
      simpa using hh
    have hurl : getDistLocation kuiDist version goos =
        (hostOf kuiDist version ++ "/") ++ "Kui" ++ getDistOSSuffix goos := by
      simp [getDistLocation, hh']
    refine ⟨?_, ?_⟩
    · rw [hurl, String.append_assoc]
      exact goHasSuffix_append _ _
    · rw [hurl, hh', if_neg (show ¬(false = true) by decide)]
      rw [String.append_assoc, String.append_assoc]

/-! ## C5: execution-style selection -/

/-- C5 counterexample.  With sub-arguments
`["install", "--some-flag", "--ui"]` a `--ui` flag does follow the
recognized first sub-argument, yet the launcher still selects blocking
headless mode, because the code only inspects the second sub-argument: the
claim's "no `--ui` flag follows it" condition is violated. -/
theorem execPlan_counterexample :
    execPlan ["install", "--some-flag", "--ui"] = some (.execWithRun, true) ∧
    "--ui" ∈ ["--some-flag", "--ui"] := by
  decide

/-- C5 amended.  RunBlocking with the headless variable is selected exactly
when the first sub-argument is one of the five recognized commands and the
immediately following sub-argument (if any) is not `--ui`; in every other
case the plan is StartDetached with no headless variable.  A `--ui` after
the second position does not suppress headless mode.  The spec's concrete
examples all hold. -/
theorem execPlan_spec (arg : String) (rest : List String) :
    execPlan (arg :: rest) =
      (if (arg = "install" ∨ arg = "uninstall" ∨ arg = "list" ∨ arg = "version" ∨
          arg = "commands") ∧ rest.head? ≠ some "--ui" then
        some (.execWithRun, true)
      else
        some (.execWithStart, false)) ∧
    execPlan ["install"] = some (.execWithRun, true) ∧
    execPlan ["list"] = some (.execWithRun, true) ∧
    execPlan ["version"] = some (.execWithRun, true) ∧
    execPlan ["install", "--ui"] = some (.execWithStart, false) ∧
    execPlan ["get", "pods"] = some (.execWithStart, false) := by
  refine ⟨?_, by decide, by decide, by decide, by decide, by decide⟩
  cases rest with
  | nil => simp [execPlan]
  | cons b bs =>
    by_cases hmem : arg = "install" ∨ arg = "uninstall" ∨ arg = "list" ∨
        arg = "version" ∨ arg = "commands"
    · by_cases hui : b = "--ui"
      · simp [execPlan, hmem, hui]
      · simp [execPlan, hmem, hui]
    · simp [execPlan, hmem]

/-! ## C1: the success marker is the commit point -/

/-- C1.  The success marker is created only after the download and the
extraction completed without error — when `createMarker` appears in the
trace, the readiness check had failed, the download and extraction both
succeeded, and the trace places `createMarker` strictly after `download`
and `extract`.  And whenever the marker is absent at the readiness check —
for an arbitrary state `s`, in particular with a non-empty `extract/`
directory left by a mid-extraction crash — the full sequence runs again:
the download is performed, and if it succeeds, the extraction is
performed, never trusting existing directory contents. -/
theorem ensureReady_commit_point (goos pluginDir version : String) (env : DistEnv)
    (force : Bool) (s : CacheState) :
    (Effect.createMarker ∈ (downloadDistIfNecessary goos pluginDir version env force s).1 →
      (afterForce force s).marker = false ∧
      ∃ content files, env.downloadResult = .ok content ∧
        env.extractResult content (afterForce force s).extracted = .ok files ∧
        (downloadDistIfNecessary goos pluginDir version env force s).1 =
          forceTrace force ++ [.mkdirExtracted, .download, .removeOldSymlink,
            .makeSymlink, .extract, .createMarker]) ∧
    ((afterForce force s).marker = false →
      Effect.download ∈ (downloadDistIfNecessary goos pluginDir version env force s).1 ∧
      ∀ content, env.downloadResult = .ok content →
        Effect.extract ∈ (downloadDistIfNecessary goos pluginDir version env force s).1) := by
  have hforce : Effect.createMarker ∉ forceTrace force := by
    cases force <;> simp [forceTrace]
  constructor
  · intro hmem
    by_cases hm : (afterForce force s).marker = true
    · rw [run_eq_of_marker hm] at hmem
      exact absurd hmem hforce
    · have hm' : (afterForce force s).marker = false := by simpa using hm
      refine ⟨hm', ?_⟩
      rcases hdl : env.downloadResult with e | content
      · rw [run_eq_of_download_error hm' hdl] at hmem
        rcases List.mem_append.mp hmem with h | h
        · exact absurd h hforce
        · simp at h
      · rcases hex : env.extractResult content (afterForce force s).extracted with e | files
        · rw [run_eq_of_extract_error hm' hdl hex] at hmem
          rcases List.mem_append.mp hmem with h | h
          · exact absurd h hforce
          · simp at h
        · refine ⟨content, files, rfl, hex, ?_⟩
          cases hc : env.createMarkerOk
          · rw [run_eq_of_marker_create_fail hm' hdl hex hc]
          · rw [run_eq_of_success hm' hdl hex hc]
  · intro hm'
    constructor
    · rcases hdl : env.downloadResult with e | content
      · rw [run_eq_of_download_error hm' hdl]
        simp
      · rcases hex : env.extractResult content (afterForce force s).extracted with e | files
        · rw [run_eq_of_extract_error hm' hdl hex]
          simp
        · cases hc : env.createMarkerOk
          · rw [run_eq_of_marker_create_fail hm' hdl hex hc]
            simp
          · rw [run_eq_of_success hm' hdl hex hc]
            simp
    · intro content hdl
      rcases hex : env.extractResult content (afterForce force s).extracted with e | files
      · rw [run_eq_of_extract_error hm' hdl hex]
        simp
      · cases hc : env.createMarkerOk
        · rw [run_eq_of_marker_create_fail hm' hdl hex hc]
          simp
        · rw [run_eq_of_success hm' hdl hex hc]
          simp

/-- Witness for C1 at a crashed mid-extraction state (no marker, non-empty
`extract/`) and a fully successful environment. -/
theorem ensureReady_commit_point_witness :
    ((afterForce false sCrashed).marker = false ∧
      ∃ content files, envOk.downloadResult = .ok content ∧
        envOk.extractResult content (afterForce false sCrashed).extracted = .ok files ∧
        (downloadDistIfNecessary "linux" "/p" "dev" envOk false sCrashed).1 =
          forceTrace false ++ [.mkdirExtracted, .download, .removeOldSymlink,
            .makeSymlink, .extract, .createMarker]) ∧
    Effect.download ∈ (downloadDistIfNecessary "linux" "/p" "dev" envOk false sCrashed).1 :=
  ⟨(ensureReady_commit_point "linux" "/p" "dev" envOk false sCrashed).1 (by decide),
   ((ensureReady_commit_point "linux" "/p" "dev" envOk false sCrashed).2 rfl).1⟩

/-! ## C2: a second call is a pure cache hit -/

/-- C2.  If a call with `force = false` succeeds, a second call with
`force = false` from the resulting state — against any environment, the
network included — performs no effect at all (empty trace: no download, no
extraction, no writes to `targetDir`) and returns the same state and the
same root command descriptor. -/
theorem ensureReady_cache_hit (goos pluginDir version : String) (env1 env2 : DistEnv)
    (s s1 : CacheState) (tr1 : List Effect) (cmd1 : String)
    (h : downloadDistIfNecessary goos pluginDir version env1 false s = (tr1, .ok (s1, cmd1))) :
    downloadDistIfNecessary goos pluginDir version env2 false s1 = ([], .ok (s1, cmd1)) := by
  have hid1 : afterForce false s1 = s1 := by simp [afterForce]
  have key : s1.marker = true ∧
      cmd1 = getRootCommand goos (extractedDirPath pluginDir version) := by
    by_cases hm : (afterForce false s).marker = true
    · rw [run_eq_of_marker hm] at h
      have h2 := congrArg Prod.snd h
      simp at h2
      exact ⟨by rw [← h2.1]; exact hm, h2.2.symm⟩
    · have hm' : (afterForce false s).marker = false := by simpa using hm
      rcases hdl : env1.downloadResult with e | content
      · rw [run_eq_of_download_error hm' hdl] at h
        simp [Prod.ext_iff] at h
      · rcases hex : env1.extractResult content (afterForce false s).extracted with e | files
        · rw [run_eq_of_extract_error hm' hdl hex] at h
          simp [Prod.ext_iff] at h
        · cases hc : env1.createMarkerOk
          · rw [run_eq_of_marker_create_fail hm' hdl hex hc] at h
            simp [Prod.ext_iff] at h
          · rw [run_eq_of_success hm' hdl hex hc] at h
            have h2 := congrArg Prod.snd h
            simp at h2
            exact ⟨by rw [← h2.1], h2.2.symm⟩
  have hm2 : (afterForce false s1).marker = true := by
    rw [hid1]
    exact key.1
  rw [run_eq_of_marker hm2, hid1, key.2]
  simp [forceTrace]

/-- Witness for C2: after a cache hit on a ready state, a second call
succeeds with an empty trace even against an environment whose network is
down. -/
theorem ensureReady_cache_hit_witness :
    downloadDistIfNecessary "linux" "/p" "dev" envDown false sReady =
      ([], .ok (sReady, getRootCommand "linux" (extractedDirPath "/p" "dev"))) :=
  ensureReady_cache_hit "linux" "/p" "dev" envOk envDown sReady sReady []
    (getRootCommand "linux" (extractedDirPath "/p" "dev")) rfl

/-! ## C3: forced refresh always resets first -/

/-- C3.  With `force = true` the run always begins by removing the success
marker and recursively removing `extract/` — before the readiness check —
so the download always follows (and the extraction too when the download
succeeds); and the cleanup is a non-fatal no-op on whatever was there: the
whole run is independent of the prior cache state, so a missing marker or
directory changes nothing and no removal error is propagated. -/
theorem ensureReady_force_reset (goos pluginDir version : String) (env : DistEnv)
    (s other : CacheState) :
    (∃ rest, (downloadDistIfNecessary goos pluginDir version env true s).1 =
      Effect.removeMarker :: Effect.removeExtractedDir :: rest) ∧
    Effect.download ∈ (downloadDistIfNecessary goos pluginDir version env true s).1 ∧
    (∀ content, env.downloadResult = .ok content →
      Effect.extract ∈ (downloadDistIfNecessary goos pluginDir version env true s).1) ∧
    downloadDistIfNecessary goos pluginDir version env true s =
      downloadDistIfNecessary goos pluginDir version env true other := by
  have hmS : (afterForce true s).marker = false := by simp [afterForce]
  have hmO : (afterForce true other).marker = false := by simp [afterForce]
  have hexS : (afterForce true s).extracted = [] := by simp [afterForce]
  have hexO : (afterForce true other).extracted = [] := by simp [afterForce]
  have hforce : forceTrace true = [Effect.removeMarker, Effect.removeExtractedDir] := by
    simp [forceTrace]
  refine ⟨?_, ?_, ?_, ?_⟩
  · rcases hdl : env.downloadResult with e | content
    · refine ⟨[Effect.mkdirExtracted, Effect.download], ?_⟩
      rw [run_eq_of_download_error hmS hdl]
      simp [hforce]
    · rcases hex : env.extractResult content (afterForce true s).extracted with e | files
      · refine ⟨[Effect.mkdirExtracted, Effect.download, Effect.removeOldSymlink,
          Effect.makeSymlink, Effect.extract], ?_⟩
        rw [run_eq_of_extract_error hmS hdl hex]
        simp [hforce]
      · cases hc : env.createMarkerOk
        · refine ⟨[Effect.mkdirExtracted, Effect.download, Effect.removeOldSymlink,
            Effect.makeSymlink, Effect.extract, Effect.createMarker], ?_⟩
          rw [run_eq_of_marker_create_fail hmS hdl hex hc]
          simp [hforce]
        · refine ⟨[Effect.mkdirExtracted, Effect.download, Effect.removeOldSymlink,
            Effect.makeSymlink, Effect.extract, Effect.createMarker], ?_⟩
          rw [run_eq_of_success hmS hdl hex hc]
          simp [hforce]
  · rcases hdl : env.downloadResult with e | content
    · rw [run_eq_of_download_error hmS hdl]
      simp
    · rcases hex : env.extractResult content (afterForce true s).extracted with e | files
      · rw [run_eq_of_extract_error hmS hdl hex]
        simp
      · cases hc : env.createMarkerOk
        · rw [run_eq_of_marker_create_fail hmS hdl hex hc]
          simp
        · rw [run_eq_of_success hmS hdl hex hc]
          simp
  · intro content hdl
    rcases hex : env.extractResult content (afterForce true s).extracted with e | files
    · rw [run_eq_of_extract_error hmS hdl hex]
      simp
    · cases hc : env.createMarkerOk
      · rw [run_eq_of_marker_create_fail hmS hdl hex hc]
        simp
      · rw [run_eq_of_success hmS hdl hex hc]
        simp
  · rcases hdl : env.downloadResult with e | content
    · rw [run_eq_of_download_error hmS hdl, run_eq_of_download_error hmO hdl]
    · rcases hex : env.extractResult content [] with e | files
      · rw [run_eq_of_extract_error hmS hdl (by rw [hexS]; exact hex),
          run_eq_of_extract_error hmO hdl (by rw [hexO]; exact hex)]
      · cases hc : env.createMarkerOk
        · rw [run_eq_of_marker_create_fail hmS hdl (by rw [hexS]; exact hex) hc,
            run_eq_of_marker_create_fail hmO hdl (by rw [hexO]; exact hex) hc]
        · rw [run_eq_of_success hmS hdl (by rw [hexS]; exact hex) hc,
            run_eq_of_success hmO hdl (by rw [hexO]; exact hex) hc]

/-- Witness for C3: a forced refresh from a ready state extracts again
after downloading. -/
theorem ensureReady_force_reset_witness :
    Effect.download ∈ (downloadDistIfNecessary "linux" "/p" "dev" envOk true sReady).1 ∧
    Effect.extract ∈ (downloadDistIfNecessary "linux" "/p" "dev" envOk true sReady).1 :=
  ⟨(ensureReady_force_reset "linux" "/p" "dev" envOk sReady sCrashed).2.1,
   (ensureReady_force_reset "linux" "/p" "dev" envOk sReady sCrashed).2.2.1 "A" rfl⟩

end Kask
